import Mathlib

/-!
Shallow embedding of the sampling / training-orchestration core of
experimaestro-ir (xpmir): the `ValidationListener` early-stopping and
best-checkpoint logic, the `NegativeSamplerListener`, the retrieval-based
samplers and their positive/negative splits, the in-batch-negatives
relevance matrix, the hard-negative export task, the NaN/Inf abort in the
trainers, and the serializable-iterator snapshot/restore discipline.

Numeric conventions: Python floats used for metric values and retrieval
scores are modelled as `Rat`; epochs and relevance judgements as `Int`;
Python dicts as association lists with unique keys (uniqueness is stated
as a hypothesis where it matters).
-/

/-- Status values returned by a learner listener
(xpmir.learning.learner.LearnerListenerStatus). -/
inductive LearnerListenerStatus where
  | STOP
  | DONT_STOP
  | NO_DECISION
deriving DecidableEq, Repr

/-- One entry of `ValidationListener.top`: the best validation value seen for
a metric and at which epoch it was reached (src/src/xpmir/letor/learner.py,
`self.top[metric] = {"value": value, "epoch": self.context.epoch}`). -/
structure BestEntry where
  value : Rat
  epoch : Int
deriving DecidableEq, Repr

/-- The part of a `ValidationListener` instance state that `should_stop`
reads: `early_stop`, the `metrics` dictionary (metric name to the boolean
"keep the best checkpoint" flag), the `top` table, and the current
`self.context.epoch` (src/src/xpmir/letor/learner.py). -/
structure ValidationState where
  early_stop : Int
  metrics : List (String × Bool)
  top : List (String × BestEntry)
  contextEpoch : Int

/-- The epochs of the generator
`(info["epoch"] for key, info in self.top.items() if self.metrics[key])`
in `ValidationListener.should_stop`; `none` models the KeyError raised when a
`top` key is absent from `metrics` (src/src/xpmir/letor/learner.py:116). -/
def keptEpochs (metrics : List (String × Bool)) : List (String × BestEntry) → Option (List Int)
  | [] => some []
  | p :: rest =>
    match metrics.lookup p.fst, keptEpochs metrics rest with
    | some b, some l => some (if b then p.snd.epoch :: l else l)
    | _, _ => none

/-- Translation of `ValidationListener.should_stop`
(src/src/xpmir/letor/learner.py:113-121).  The Python parameter default and
the expression `epoch or self.context.epoch` mean that an `epoch` argument
equal to 0 is replaced by the context epoch.  `none` models an uncaught
exception (KeyError from `self.metrics[key]`, or ValueError from `max` on an
empty generator). -/
def should_stop (s : ValidationState) (epoch : Int) : Option LearnerListenerStatus :=
  if 0 < s.early_stop ∧ s.top ≠ [] then
    match keptEpochs s.metrics s.top with
    | none => none
    | some es =>
      match es.max? with
      | none => none
      | some m =>
        some
          (if s.early_stop ≤ (if epoch = 0 then s.contextEpoch else epoch) - m then
            LearnerListenerStatus.STOP
          else LearnerListenerStatus.DONT_STOP)
  else some LearnerListenerStatus.DONT_STOP

/-- The `max(info["epoch"] ...)` value used by `should_stop`, when it is
defined: the maximum best epoch over monitored-and-kept metrics. -/
def keptMaxEpoch (s : ValidationState) : Option Int :=
  match keptEpochs s.metrics s.top with
  | none => none
  | some es => es.max?

/-- Python dict assignment `d[k] = v` on an association list: replaces the
value at the first occurrence of `k`, or appends a new binding. -/
def setKey {α : Type} : List (String × α) → String → α → List (String × α)
  | [], k, v => [(k, v)]
  | p :: rest, k, v => if p.fst = k then (k, v) :: rest else p :: setKey rest k v

/-- Translation of the per-metric best-table update in
`ValidationListener.__call__` (src/src/xpmir/letor/learner.py:148-161).
State is the pair (top table, best-checkpoint table); the checkpoint table
maps a metric to the epoch whose model snapshot currently occupies
`bestpath/metric` (written by `self.context.copy` when `keep` holds). -/
def validationStep (metric : String) (keep : Bool) (warmup : Int)
    (stateEpoch ctxEpoch : Int) (value : Rat)
    (st : List (String × BestEntry) × List (String × Int)) :
    List (String × BestEntry) × List (String × Int) :=
  if warmup ≤ stateEpoch then
    match st.fst.lookup metric with
    | none =>
        (setKey st.fst metric { value := value, epoch := ctxEpoch },
         if keep then setKey st.snd metric ctxEpoch else st.snd)
    | some topstate =>
        if topstate.value < value then
          (setKey st.fst metric { value := value, epoch := ctxEpoch },
           if keep then setKey st.snd metric ctxEpoch else st.snd)
        else (st.fst, st.snd)
  else (st.fst, st.snd)

/-- A sequence of validation passes for one metric: each pass supplies the
epoch (used both as `state.epoch` and `self.context.epoch`) and the computed
validation value. -/
def runValidationSeq (metric : String) (keep : Bool) (warmup : Int)
    (passes : List (Int × Rat))
    (st : List (String × BestEntry) × List (String × Int)) :
    List (String × BestEntry) × List (String × Int) :=
  passes.foldl (fun acc p => validationStep metric keep warmup p.fst p.fst p.snd acc) st

/-- Translation of `ValidationListener.__validate__`
(src/src/xpmir/letor/learner.py:69-72): the construction-time assertion
`early_stop % validation_interval == 0`; `true` means the assertion passes. -/
def validationValidate (early_stop validation_interval : Int) : Bool :=
  early_stop % validation_interval = 0

/-- Concrete `ValidationState` refuting the literal reading of the
early-stop rule at epoch 0: a best was recorded at epoch 0, the context
epoch is 10, and `early_stop = 4`. -/
def c1state : ValidationState :=
  { early_stop := 4
    metrics := [("map", true)]
    top := [("map", { value := 1/2, epoch := 0 })]
    contextEpoch := 10 }

/-- Concrete `ValidationState` for the spec example: `early_stop = 4`,
metric "map" kept, most recent best recorded at epoch 4. -/
def c1example : ValidationState :=
  { early_stop := 4
    metrics := [("map", true)]
    top := [("map", { value := 1/2, epoch := 4 })]
    contextEpoch := 8 }

/-! Retrieval-based samplers: positive/negative splits
(src/src/xpmir/letor/samplers.py). -/

/-- A per-query assessment dictionary `qassessments : doc id to judged
relevance` (samplers.py, built from `dataset.assessments.iter()`). -/
abbrev Qassessments := List (String × Int)

/-- The relevance the samplers assign to a document:
`qassessments.get(docid, 0)` — unjudged documents default to 0
(samplers.py:182, samplers.py:576). -/
def lookupRel (a : Qassessments) (d : String) : Int :=
  (a.lookup d).getD 0

/-- Positives of `ModelBasedSampler._itertopics` (samplers.py:163-166):
all judged documents with relevance strictly greater than 0, carried with
their relevance and a 0 score. -/
def itertopicsPositives (a : Qassessments) : List (String × Int × Rat) :=
  (a.filter fun p => 0 < p.snd).map fun p => (p.fst, p.snd, (0 : Rat))

/-- Negatives of `ModelBasedSampler._itertopics` (samplers.py:179-186):
the retrieved documents (with their retrieval score) whose judged relevance,
defaulting to 0, is not strictly positive. -/
def itertopicsNegatives (a : Qassessments) (retrieved : List (String × Rat)) :
    List (String × Int × Rat) :=
  retrieved.filterMap fun sd =>
    let rel := lookupRel a sd.fst
    if 0 < rel then none else some (sd.fst, rel, sd.snd)

/-- The positive/negative split of `ModelBasedHardNegativeSampler.execute`
(samplers.py:575-582): the retrieved documents are partitioned, in rank
order, by whether their judged relevance (default 0) is strictly
positive. -/
def executeSplit (a : Qassessments) (retrieved : List String) :
    List String × List String :=
  retrieved.partition fun d => 0 < lookupRel a d

/-- Assessment dictionary of the C4 example: judgements d1:1, d2:0, d3:-1. -/
def c4assess : Qassessments := [("d1", 1), ("d2", 0), ("d3", -1)]

/-- Retrieved documents of the C4 example: d1, d2, d4. -/
def c4retrieved : List String := ["d1", "d2", "d4"]

/-- Retrieved documents of the C4 example with retrieval scores, as
consumed by `_itertopics`. -/
def c4retrievedScored : List (String × Rat) := [("d1", 3), ("d2", 2), ("d4", 1)]

/-! Hard-negative export (`ModelBasedHardNegativeSampler.execute`,
samplers.py:530-605). -/

/-- A topic as yielded by `dataset.topics.iter()`: its id and text. -/
structure Topic where
  qid : String
  text : String

/-- The space-joined document id list written in the export file
(`" ".join(...)`, samplers.py:598-599). -/
def joinSpace (l : List String) : String := String.intercalate " " l

/-- The string written for one query by
`ModelBasedHardNegativeSampler.execute` when it is not skipped
(samplers.py:568-603): `none` when the query is skipped for having no
positive or no negative retrieved document.  `writtenQid` is the expression
`qrels.qid` of the f-string — the loop variable left over from the
assessments-reading loop, not the query being exported — and the write has
no trailing newline. -/
def hardNegativeLine (writtenQid : String) (qa : Qassessments)
    (retrieved : List String) : Option String :=
  let split := executeSplit qa retrieved
  if split.fst = [] then none
  else if split.snd = [] then none
  else
    some (writtenQid ++ "\t" ++ "positives:" ++ "\t" ++ joinSpace split.fst
      ++ "\t" ++ "negatives:" ++ "\t" ++ joinSpace split.snd)

/-- Everything `ModelBasedHardNegativeSampler.execute` writes to the
`hard_negatives.tsv` file (samplers.py:555-603): queries with no (or empty)
assessment entry are skipped; the per-query strings are concatenated in
order (each `fp.write` appends with no newline).  `qrels.qid` is the qid of
the last assessments entry read in the loop of samplers.py:542-546. -/
def hardNegativeOutput (assessments : List (String × Qassessments))
    (queries : List Topic) (retrieve : String → List String) : String :=
  let writtenQid := ((assessments.getLast?).map Prod.fst).getD ""
  String.join (queries.filterMap fun q =>
    match assessments.lookup q.qid with
    | none => none
    | some [] => none
    | some qa => hardNegativeLine writtenQid qa (retrieve q.text))

/-- Assessments of the C6 failing input: q1 judges d1 relevant, q2 judges
e1 relevant; q2 is the last entry read, so `qrels.qid` is "q2". -/
def c6assess : List (String × Qassessments) := [("q1", [("d1", 1)]), ("q2", [("e1", 1)])]

/-- Topics of the C6 failing input. -/
def c6queries : List Topic := [⟨"q1", "first query"⟩, ⟨"q2", "second query"⟩]

/-- Retriever of the C6 failing input: returns one judged-relevant and one
unjudged document for each query. -/
def c6retrieve : String → List String := fun t =>
  if t = "first query" then ["d1", "d2"] else ["e1", "e2"]

/-! NaN/Inf abort in the trainers (src/xpmir/letor/trainers/pointwise.py,
src/xpmir/letor/distillation/pairwise.py). -/

/-- A computed relevance score: either a finite value, a NaN, or an
infinity.  The trainers only ever test scores with `torch.isnan` and
`torch.isinf`, so this three-way classification captures everything the
embedded code observes. -/
inductive Score where
  | finite : Rat → Score
  | nan : Score
  | inf : Score
deriving DecidableEq, Repr

/-- The `torch.isnan` test on one score. -/
def Score.isNan : Score → Bool
  | Score.nan => true
  | _ => false

/-- The `torch.isinf` test on one score. -/
def Score.isInf : Score → Bool
  | Score.inf => true
  | _ => false

/-- The guard `torch.isnan(rel_scores).any() or torch.isinf(rel_scores).any()`
shared by `PointwiseTrainer.train_batch` (pointwise.py:78) and
`DistillationPairwiseTrainer.train_batch` (pairwise.py:115). -/
def nanInfCheck (rel_scores : List Score) : Bool :=
  (rel_scores.any Score.isNan) || (rel_scores.any Score.isInf)

/-- Translation of the abort behaviour of `train_batch`
(pointwise.py:77-80, pairwise.py:113-117): `none` models `sys.exit(1)` —
the process terminates with no retry and no substituted value; otherwise
the scores pass through to the loss computation. -/
def train_batch (rel_scores : List Score) : Option (List Score) :=
  if nanInfCheck rel_scores then none else some rel_scores

/-- Modelled from the spec: the Learner batch loop of section 4.4 (its code,
xpmir/learning/learner.py, is not under src/) — batches are processed
strictly sequentially, and a fatal `train_batch` abort terminates the run
at once.  Input is the per-batch computed score tensors; output is the list
of batches actually processed and whether the run aborted. -/
def runBatches : List (List Score) → List (List Score) × Bool
  | [] => ([], false)
  | b :: rest =>
    match train_batch b with
    | none => ([b], true)
    | some _ =>
      let r := runBatches rest
      (b :: r.fst, r.snd)

/-- The C5 failing run: 10 batches whose scores are all finite except batch
3 (index 2), which contains a NaN. -/
def c5batches : List (List Score) :=
  [[Score.finite 1], [Score.finite 2], [Score.nan, Score.finite 3],
   [Score.finite 4], [Score.finite 5], [Score.finite 6], [Score.finite 7],
   [Score.finite 8], [Score.finite 9], [Score.finite 10]]

/-! NegativeSamplerListener (src/src/xpmir/letor/learner.py:175-194). -/

/-- Modelled from the spec: the switchable multi-iterator of section 4.1(c)
(its code, `ListwiseSerializableIterator` in xpmir/utils/iter.py, is not
under src/) — an ordered list of sub-samplers with a current index that
`set_current` hot-swaps.  `setLog` records every `set_current` call and
`updateLog` every sub-sampler `update()` call, in order. -/
structure MultiSamplerState where
  current : Nat
  setLog : List Nat
  updateLog : List Nat
deriving DecidableEq, Repr

/-- The `set_current(i)` operation of the switchable multi-iterator. -/
def set_current (m : MultiSamplerState) (i : Nat) : MultiSamplerState :=
  { m with current := i, setLog := m.setLog ++ [i] }

/-- The `samplers[i].update()` call, recorded in the log. -/
def subSamplerUpdate (m : MultiSamplerState) (i : Nat) : MultiSamplerState :=
  { m with updateLog := m.updateLog ++ [i] }

/-- Instance state of `NegativeSamplerListener`: the `change` flag and the
listener's own `sampler_index` (learner.py:180-183). -/
structure NegSamplerListener where
  change : Bool
  sampler_index : Nat
deriving DecidableEq, Repr

/-- State of `NegativeSamplerListener` right after `initialize`
(learner.py:180-183): `change = True`, `sampler_index = 0`. -/
def negListenerInit : NegSamplerListener := { change := true, sampler_index := 0 }

/-- Translation of `NegativeSamplerListener.__call__` (learner.py:185-194)
for one epoch: on a trigger (`epoch % sampling_interval == 0`), first
switch the multi-sampler on the first trigger only, then call `update()` on
`samplers[self.sampler_index]`.  The returned status is always
`NO_DECISION`; only the state change matters here. -/
def negListenerCall (interval : Nat) (st : NegSamplerListener × MultiSamplerState)
    (epoch : Nat) : NegSamplerListener × MultiSamplerState :=
  if epoch % interval = 0 then
    let st2 :=
      if st.fst.change then
        ({ change := false, sampler_index := st.fst.sampler_index + 1 },
         set_current st.snd (st.fst.sampler_index + 1))
      else st
    (st2.fst, subSamplerUpdate st2.snd st2.fst.sampler_index)
  else st

/-- A run of `NegativeSamplerListener` from its initialized state over a
sequence of epoch numbers. -/
def runNegListener (interval : Nat) (m0 : MultiSamplerState) (epochs : List Nat) :
    NegSamplerListener × MultiSamplerState :=
  epochs.foldl (negListenerCall interval) (negListenerInit, m0)

/-! In-batch negatives relevance matrix
(`PairwiseInBatchNegativesSampler.batchwise_iter`, samplers.py:370-390). -/

/-- Row `i` of `torch.eye n`: 1 at column `i`, 0 elsewhere. -/
def eyeRow (n i : Nat) : List Rat :=
  (List.range n).map fun j => if j = i then 1 else 0

/-- `torch.eye n` as a list of rows. -/
def eye (n : Nat) : List (List Rat) :=
  (List.range n).map (eyeRow n)

/-- `torch.zeros r c` as a list of rows. -/
def zeros (r c : Nat) : List (List Rat) :=
  List.replicate r (List.replicate c 0)

/-- `torch.cat((a, b), 1)`: row-wise concatenation of two matrices. -/
def hcat (a b : List (List Rat)) : List (List Rat) :=
  a.zipWith (fun x y => x ++ y) b

/-- The relevance matrix pre-computed once per `batchwise_iter` call:
`torch.cat((torch.eye(batch_size), torch.zeros(batch_size, batch_size)), 1)`
(samplers.py:373-375). -/
def inBatchRelevances (batch_size : Nat) : List (List Rat) :=
  hcat (eye batch_size) (zeros batch_size batch_size)

/-- A pairwise record (query, positive document, negative document), text
form (xpmir.letor.records.PairwiseRecord). -/
structure PairRecord where
  query : String
  positive : String
  negative : String
deriving DecidableEq, Repr

/-- One `ProductRecords` batch as assembled by the loop of
`batchwise_iter` (samplers.py:377-388): `batch_size` queries, then all
their positives followed by all their negatives, and the shared relevance
matrix. -/
structure BatchwiseRecords where
  queries : List String
  documents : List String
  relevances : List (List Rat)
deriving DecidableEq, Repr

/-- The stream of batches yielded by
`PairwiseInBatchNegativesSampler.batchwise_iter` over a pairwise record
stream: the `n`-th batch consumes records `n*B .. n*B+B-1` and carries the
relevance matrix computed once before the loop (samplers.py:370-390). -/
def batchwiseStream (batch_size : Nat) (pairs : Nat → PairRecord) (n : Nat) :
    BatchwiseRecords :=
  let batchPairs := (List.range batch_size).map fun k => pairs (n * batch_size + k)
  { queries := batchPairs.map PairRecord.query
    documents :=
      batchPairs.map PairRecord.positive ++ batchPairs.map PairRecord.negative
    relevances := inBatchRelevances batch_size }

/-! Serializable iterators: snapshot/restore
(`PairwiseDatasetTripletBasedSampler.pairwise_iter._Iterator`,
samplers.py:438-468, and `PairwiseModelBasedSampler.pairwise_iter`,
samplers.py:330-340). -/

/-- Modelled from the spec: RandomState and StreamPosition (spec sections 3
and 4.1; the iterator classes `SkippingIterator` and
`RandomSerializableIterator` live in xpmir/utils/iter.py, which is not
under src/).  The serializable state is exactly the pair saved by
`_Iterator.state_dict` — the PRNG state plus the count of items already
produced — and restoring it installs both into a fresh iterator. -/
structure SerializableIteratorState where
  random : Nat
  position : Nat
deriving DecidableEq, Repr

/-- Modelled from the spec: an explicit deterministic PRNG standing for
`numpy.random.RandomState` (spec section 3: an opaque serializable snapshot
whose restoration makes subsequent draws identical).  A 64-bit linear
congruential step returning the high 32 bits. -/
def prngStep (s : Nat) : Nat × Nat :=
  let s2 := (6364136223846793005 * s + 1442695040888963407) % 18446744073709551616
  ((s2 / 4294967296) % 4294967296, s2)

/-- The draw `random.randint(n)`: a value in `[0, n)` plus the advanced
PRNG state. -/
def randint (r : Nat) (n : Nat) : Nat × Nat :=
  let p := prngStep r
  (p.fst % n, p.snd)

/-- A `PairwiseSample` (datamaestro) as consumed by `_Iterator.next`
(samplers.py:457-466): a query, its positive documents, and its negative
documents grouped by sampling algorithm. -/
structure PairwiseSample where
  query : String
  positives : List String
  negatives : List (String × List String)
deriving DecidableEq, Repr

/-- Translation of `_Iterator.next` (samplers.py:457-466): three PRNG draws
pick a positive, a negative-algorithm group, and a negative inside that
group. -/
def pairwiseNext (sample : PairwiseSample) (r : Nat) : PairRecord × Nat :=
  let p1 := randint r sample.positives.length
  let pos := sample.positives.getD p1.fst ""
  let p2 := randint p1.snd sample.negatives.length
  let negGroup := (sample.negatives.getD p2.fst ("", [])).snd
  let p3 := randint p2.snd negGroup.length
  ({ query := sample.query, positive := pos, negative := negGroup.getD p3.fst "" }, p3.snd)

/-- One step of the serializable iterator: consume the sample at the
current stream position, draw from the PRNG, advance both. -/
def iterNext (source : Nat → PairwiseSample) (st : SerializableIteratorState) :
    PairRecord × SerializableIteratorState :=
  let sample := source st.position
  let step := pairwiseNext sample st.random
  (step.fst, { random := step.snd, position := st.position + 1 })

/-- Draw `n` records from the iterator, returning them with the final
iterator state. -/
def drawN (source : Nat → PairwiseSample) (st : SerializableIteratorState) :
    Nat → List PairRecord × SerializableIteratorState
  | 0 => ([], st)
  | Nat.succ n =>
    let step := iterNext source st
    let rest := drawN source step.snd n
    (step.fst :: rest.fst, rest.snd)

/-- `_Iterator.state_dict` (samplers.py:450-451): the snapshot is the
random state together with the stream position. -/
def state_dict (st : SerializableIteratorState) : SerializableIteratorState := st

/-- `_Iterator.load_state_dict` / `restore_state` (samplers.py:446-455):
install the snapshot's random state and stream position into an iterator. -/
def load_state_dict (snap : SerializableIteratorState)
    (it : SerializableIteratorState) : SerializableIteratorState :=
  { it with random := snap.random, position := snap.position }

/-- A freshly created iterator seeded with `seed`: PRNG state `seed`,
stream position 0. -/
def freshIterator (seed : Nat) : SerializableIteratorState :=
  { random := seed, position := 0 }

/-- A `ValidationState` with an empty best table and aggressive early-stop
settings, exercising the claim that no recorded best means no stop. -/
def c10state : ValidationState :=
  { early_stop := 1000
    metrics := [("map", true)]
    top := []
    contextEpoch := 999999 }

/-- The multi-sampler before any trigger: sub-sampler 0 active, no calls
logged yet. -/
def c7m0 : MultiSamplerState := { current := 0, setLog := [], updateLog := [] }

/-! Helper lemmas. -/

/-- Splitting a draw of `m + n` records at the `m`-record mark: the second
half continues from the intermediate iterator state. -/
theorem drawN_add (source : Nat → PairwiseSample) (st : SerializableIteratorState)
    (m n : Nat) :
    drawN source st (m + n) =
      ((drawN source st m).fst ++ (drawN source (drawN source st m).snd n).fst,
       (drawN source (drawN source st m).snd n).snd) := by
  induction m generalizing st with
  | zero => simp [drawN]
  | succ k ih =>
    have hmn : k + 1 + n = (k + n) + 1 := by omega
    rw [hmn]
    simp only [drawN, ih]
    rw [List.cons_append]

/-- `setKey` leaves the key list unchanged when the key is already
present. -/
theorem setKey_keys_of_mem {α : Type} (l : List (String × α)) (k : String) (v : α)
    (h : k ∈ l.map Prod.fst) : (setKey l k v).map Prod.fst = l.map Prod.fst := by
  induction l with
  | nil => simp at h
  | cons p rest ih =>
    by_cases hp : p.fst = k
    · simp [setKey, hp]
    · have hk : k ∈ rest.map Prod.fst := by
        rcases List.mem_map.mp h with ⟨q, hq, hqk⟩
        rcases List.mem_cons.mp hq with h1 | h1
        · exact absurd (h1 ▸ hqk) hp
        · exact List.mem_map.mpr ⟨q, h1, hqk⟩
      simp [setKey, hp, ih hk]

/-- `setKey` appends the key when it is absent. -/
theorem setKey_keys_of_not_mem {α : Type} (l : List (String × α)) (k : String) (v : α)
    (h : k ∉ l.map Prod.fst) :
    (setKey l k v).map Prod.fst = l.map Prod.fst ++ [k] := by
  induction l with
  | nil => simp [setKey]
  | cons p rest ih =>
    have hp : ¬ p.fst = k := fun hh => h (by simp [hh])
    have hrest : k ∉ rest.map Prod.fst := fun hm => h (by simp [hm])
    simp [setKey, hp, ih hrest]

/-- Python dict assignment preserves key uniqueness. -/
theorem setKey_keys_nodup {α : Type} (l : List (String × α)) (k : String) (v : α)
    (h : (l.map Prod.fst).Nodup) : ((setKey l k v).map Prod.fst).Nodup := by
  by_cases hm : k ∈ l.map Prod.fst
  · rw [setKey_keys_of_mem l k v hm]; exact h
  · rw [setKey_keys_of_not_mem l k v hm]
    rw [List.nodup_append]
    exact ⟨h, List.nodup_singleton k, by simpa [List.disjoint_singleton] using hm⟩

/-! Claim theorems. -/

/-- Claim C2 (confirmed, spec-modelled): drawing N records, snapshotting the
iterator state (`state_dict` = RandomState + StreamPosition), restoring it
into a fresh iterator (`load_state_dict`) and drawing N more yields exactly
the 2N-record sequence of an uninterrupted run, for any source data, any
starting state and any seed of the fresh iterator; moreover the restored
iterator is in exactly the snapshotted state. -/
theorem C2_snapshot_restore (source : Nat → PairwiseSample)
    (st : SerializableIteratorState) (N seed : Nat) :
    (drawN source st N).fst ++
        (drawN source
          (load_state_dict (state_dict (drawN source st N).snd) (freshIterator seed))
          N).fst
      = (drawN source st (N + N)).fst
    ∧ load_state_dict (state_dict (drawN source st N).snd) (freshIterator seed)
        = (drawN source st N).snd := by
  have hres : load_state_dict (state_dict (drawN source st N).snd) (freshIterator seed)
      = (drawN source st N).snd := rfl
  refine ⟨?_, hres⟩
  rw [hres, drawN_add]

/-- Claim C6 (code_bug): on a concrete input with two exportable queries q1
and q2, `ModelBasedHardNegativeSampler.execute` writes the qid of the last
assessments entry (the stale loop variable `qrels`) for both records, and
writes no newline between records — rather than each record beginning with
its own query id on its own line as the spec (and the reader
`PairwiseSampleDatasetFromTSV`) expects. -/
theorem C6_export_line_bug :
    hardNegativeOutput c6assess c6queries c6retrieve =
      "q2\tpositives:\td1\tnegatives:\td2q2\tpositives:\te1\tnegatives:\te2"
    ∧ hardNegativeOutput c6assess c6queries c6retrieve ≠
        "q1\tpositives:\td1\tnegatives:\td2" ++ "q2\tpositives:\te1\tnegatives:\te2" := by
  exact ⟨rfl, by decide⟩

/-- Claim C9 (confirmed): for a positive validation interval, the
construction-time assertion of `ValidationListener.__validate__` fails
exactly when `early_stop` is not a multiple of `validation_interval`, and
`early_stop = 0` always passes it. -/
theorem C9_early_stop_validate (early_stop validation_interval : Int)
    (h : 0 < validation_interval) :
    (validationValidate early_stop validation_interval = false ↔
      ¬ validation_interval ∣ early_stop)
    ∧ validationValidate 0 validation_interval = true := by
  constructor
  · simp only [validationValidate, decide_eq_false_iff_not]
    exact not_congr ⟨Int.dvd_of_emod_eq_zero, Int.emod_eq_zero_of_dvd⟩
  · simp [validationValidate]

/-- Witness for C9: with `validation_interval = 2`, `early_stop = 3` fails
the check while `early_stop = 0` passes it. -/
theorem C9_early_stop_validate_witness :
    (0 : Int) < 2
    ∧ (validationValidate 3 2 = false ↔ ¬ (2 : Int) ∣ 3)
    ∧ validationValidate 0 2 = true :=
  ⟨by decide, (C9_early_stop_validate 3 2 (by decide)).1,
    (C9_early_stop_validate 0 2 (by decide)).2⟩

/-- Claim C10 (confirmed): with an empty best table,
`ValidationListener.should_stop` returns `DONT_STOP` for every epoch,
whatever `early_stop` and the elapsed context epoch are. -/
theorem C10_no_best_dont_stop (s : ValidationState) (h : s.top = []) (e : Int) :
    should_stop s e = some LearnerListenerStatus.DONT_STOP := by
  unfold should_stop
  rw [if_neg (fun hc => hc.2 h)]

/-- Witness for C10: a state with `early_stop = 1000`, context epoch 999999
and no recorded best still answers `DONT_STOP` at epoch 123456. -/
theorem C10_no_best_dont_stop_witness :
    c10state.top = []
    ∧ should_stop c10state 123456 = some LearnerListenerStatus.DONT_STOP :=
  ⟨rfl, C10_no_best_dont_stop c10state rfl 123456⟩

/-- Counterexample to C1 as stated: with a best recorded at epoch 0 for the
kept metric "map", `early_stop = 4` and context epoch 10, the call
`should_stop(0)` returns STOP although the claimed rule
(`e - max best epoch ≥ early_stop` with `e = 0`) demands DONT_STOP — the
Python expression `epoch or self.context.epoch` substitutes the context
epoch when the argument is 0. -/
theorem C1_counterexample :
    should_stop c1state 0 = some LearnerListenerStatus.STOP
    ∧ keptMaxEpoch c1state = some 0
    ∧ c1state.early_stop = 4
    ∧ ¬ ((4 : Int) ≤ 0 - 0) := by
  exact ⟨rfl, rfl, rfl, by decide⟩

/-- Claim C1 (corrected): for every nonzero epoch `e`, given that at least
one best value has been recorded on a monitored-and-kept metric (so that
`m`, the maximum recorded best epoch over those metrics, exists),
`should_stop e` returns STOP iff `early_stop > 0` and `e - m ≥ early_stop`,
and DONT_STOP otherwise; when the argument is 0 the listener substitutes
the current context epoch for it. -/
theorem C1_early_stop_rule (s : ValidationState) (e m : Int) (he : e ≠ 0)
    (hm : keptMaxEpoch s = some m) :
    should_stop s e =
      some (if 0 < s.early_stop ∧ s.early_stop ≤ e - m then LearnerListenerStatus.STOP
        else LearnerListenerStatus.DONT_STOP) := by
  have htop : s.top ≠ [] := by
    intro h
    rw [keptMaxEpoch, h] at hm
    simp [keptEpochs] at hm
  unfold should_stop
  by_cases hpos : 0 < s.early_stop
  · rw [if_pos ⟨hpos, htop⟩]
    unfold keptMaxEpoch at hm
    cases hke : keptEpochs s.metrics s.top with
    | none => rw [hke] at hm; cases hm
    | some es =>
      rw [hke] at hm
      dsimp only at hm ⊢
      rw [hm]
      dsimp only
      rw [if_neg he]
      simp [hpos]
  · rw [if_neg (fun hc => hpos hc.1),
      if_neg (fun hc : 0 < s.early_stop ∧ s.early_stop ≤ e - m => hpos hc.1)]

/-- Witness for C1: the spec example (early_stop 4, kept metric "map" with
its most recent best at epoch 4) gives STOP at epoch 8 and DONT_STOP at
epoch 6. -/
theorem C1_early_stop_rule_witness :
    ((8 : Int) ≠ 0 ∧ keptMaxEpoch c1example = some 4
      ∧ should_stop c1example 8 = some LearnerListenerStatus.STOP)
    ∧ ((6 : Int) ≠ 0
      ∧ should_stop c1example 6 = some LearnerListenerStatus.DONT_STOP) := by
  constructor
  · refine ⟨by decide, rfl, ?_⟩
    have h := C1_early_stop_rule c1example 8 4 (by decide) rfl
    rw [h]; rfl
  · refine ⟨by decide, ?_⟩
    have h := C1_early_stop_rule c1example 6 4 (by decide) rfl
    rw [h]; rfl

/-- Claim C5 (confirmed, spec-modelled loop): if batch `k` is the first
whose computed scores contain a NaN or an infinity, the run processes
exactly batches `0..k` and aborts — later batches are never reached, with
no retry and no substituted value. -/
theorem C5_nan_abort (bs : List (List Score)) (k : Nat) (hk : k < bs.length)
    (hbad : nanInfCheck (bs.getD k []) = true)
    (hgood : ∀ i, i < k → nanInfCheck (bs.getD i []) = false) :
    runBatches bs = (bs.take (k + 1), true) := by
  induction bs generalizing k with
  | nil => simp at hk
  | cons b rest ih =>
    cases k with
    | zero =>
      have hb : nanInfCheck b = true := hbad
      simp [runBatches, train_batch, hb]
    | succ k2 =>
      have hb : nanInfCheck b = false := hgood 0 (Nat.succ_pos k2)
      have hrest := ih k2 (by simpa using hk) (by simpa using hbad)
        (fun i hi => by simpa using hgood (i + 1) (by omega))
      simp [runBatches, train_batch, hb, hrest]

/-- Witness for C5: the synthetic 10-batch run with a NaN in batch 3
(index 2) processes exactly 3 batches and aborts before batch 4. -/
theorem C5_nan_abort_witness :
    (2 < c5batches.length
      ∧ nanInfCheck (c5batches.getD 2 []) = true
      ∧ (∀ i, i < 2 → nanInfCheck (c5batches.getD i []) = false))
    ∧ runBatches c5batches = (c5batches.take 3, true)
    ∧ (runBatches c5batches).fst.length = 3 ∧ c5batches.length = 10 := by
  refine ⟨⟨by decide, by decide, by decide⟩, ?_, ?_, by decide⟩
  · exact C5_nan_abort c5batches 2 (by decide) (by decide) (by decide)
  · rw [C5_nan_abort c5batches 2 (by decide) (by decide) (by decide)]
    decide

/-- After the first trigger (`change = false`), a run of
`NegativeSamplerListener` leaves the listener state and the multi-sampler
index untouched, and appends one `update()` on `sampler_index` per
triggering epoch. -/
theorem negListenerRun_post (interval : Nat) (l : NegSamplerListener)
    (hl : l.change = false) (m : MultiSamplerState) (epochs : List Nat) :
    epochs.foldl (negListenerCall interval) (l, m)
      = (l, ⟨m.current, m.setLog,
          m.updateLog ++
            List.replicate (epochs.countP fun e => decide (e % interval = 0))
              l.sampler_index⟩) := by
  induction epochs generalizing m with
  | nil => simp
  | cons e rest ih =>
    rw [List.foldl_cons]
    by_cases he : e % interval = 0
    · have step : negListenerCall interval (l, m) e
          = (l, ⟨m.current, m.setLog, m.updateLog ++ [l.sampler_index]⟩) := by
        simp [negListenerCall, he, hl, subSamplerUpdate]
      rw [step, ih]
      simp [List.countP_cons, he, List.replicate_succ, List.append_assoc]
    · have step : negListenerCall interval (l, m) e = (l, m) := by
        simp [negListenerCall, he]
      rw [step, ih]
      simp [List.countP_cons, he]

/-- A full run of `NegativeSamplerListener` from its initialized state:
with no triggering epoch nothing happens; otherwise the multi-sampler is
switched to sub-sampler 1 exactly once and every triggering epoch calls
`update()` on sub-sampler 1. -/
theorem negListenerRun_init (interval : Nat) (m : MultiSamplerState)
    (epochs : List Nat) :
    runNegListener interval m epochs =
      if (epochs.countP fun e => decide (e % interval = 0)) = 0 then
        (negListenerInit, m)
      else
        (⟨false, 1⟩,
         ⟨1, m.setLog ++ [1],
           m.updateLog ++
             List.replicate (epochs.countP fun e => decide (e % interval = 0)) 1⟩) := by
  unfold runNegListener
  induction epochs generalizing m with
  | nil => simp
  | cons e rest ih =>
    rw [List.foldl_cons]
    by_cases he : e % interval = 0
    · have step : negListenerCall interval (negListenerInit, m) e
          = (⟨false, 1⟩, ⟨1, m.setLog ++ [1], m.updateLog ++ [1]⟩) := by
        simp [negListenerCall, he, negListenerInit, set_current, subSamplerUpdate]
      rw [step, negListenerRun_post interval ⟨false, 1⟩ rfl _ rest]
      have hcount : ((e :: rest).countP fun x => decide (x % interval = 0))
          = (rest.countP fun x => decide (x % interval = 0)) + 1 := by
        simp [List.countP_cons, he]
      rw [hcount, if_neg (Nat.succ_ne_zero _)]
      simp [List.replicate_succ, List.append_assoc]
    · have step : negListenerCall interval (negListenerInit, m) e
          = (negListenerInit, m) := by
        simp [negListenerCall, he]
      rw [step, ih]
      have hcount : ((e :: rest).countP fun x => decide (x % interval = 0))
          = rest.countP fun x => decide (x % interval = 0) := by
        simp [List.countP_cons, he]
      rw [hcount]

/-- Claim C7 (confirmed, spec-modelled multi-sampler): over any run, the
active sub-sampler index is set exactly once — on the first triggering
epoch, to sub-sampler 1 — and never again (`setLog` gains exactly one
entry); every trigger logs one `update()` call, and every logged `update()`
targets the sub-sampler that is active at the end of the run (after the
first trigger the active index never changes again). -/
theorem C7_negative_sampler_listener (interval : Nat) (hpos : 0 < interval)
    (m0 : MultiSamplerState) (epochs : List Nat) :
    (runNegListener interval m0 epochs).snd.setLog
        = m0.setLog ++
          (if (epochs.countP fun e => decide (e % interval = 0)) = 0 then [] else [1])
    ∧ (runNegListener interval m0 epochs).snd.updateLog
        = m0.updateLog ++
          List.replicate (epochs.countP fun e => decide (e % interval = 0)) 1
    ∧ (runNegListener interval m0 epochs).snd.current
        = (if (epochs.countP fun e => decide (e % interval = 0)) = 0 then m0.current
          else 1)
    ∧ (∀ i ∈ ((runNegListener interval m0 epochs).snd.updateLog).drop
          m0.updateLog.length,
        i = (runNegListener interval m0 epochs).snd.current) := by
  rw [negListenerRun_init]
  by_cases h : (epochs.countP fun e => decide (e % interval = 0)) = 0
  · simp [h]
  · simp only [if_neg h]
    refine ⟨trivial, trivial, trivial, ?_⟩
    intro i hi
    rw [List.drop_left] at hi
    exact List.eq_of_mem_replicate hi

/-- Witness for C7: interval 2 over epochs 1..4 (triggers at 2 and 4):
the multi-sampler is switched to sub-sampler 1 once, both triggers call
`update()` on sub-sampler 1, and sub-sampler 1 stays active. -/
theorem C7_negative_sampler_listener_witness :
    0 < 2
    ∧ (runNegListener 2 c7m0 [1, 2, 3, 4]).snd.setLog = [1]
    ∧ (runNegListener 2 c7m0 [1, 2, 3, 4]).snd.updateLog = [1, 1]
    ∧ (runNegListener 2 c7m0 [1, 2, 3, 4]).snd.current = 1 := by
  have h := C7_negative_sampler_listener 2 (by decide) c7m0 [1, 2, 3, 4]
  exact ⟨by decide, h.1.trans (by decide), h.2.1.trans (by decide),
    h.2.2.1.trans (by decide)⟩

/-- Row-wise concatenation with a constant right block, as a map. -/
theorem hcat_replicate (rows : List (List Rat)) (pad : List Rat) :
    hcat rows (List.replicate rows.length pad) = rows.map fun r => r ++ pad := by
  induction rows with
  | nil => rfl
  | cons r rest ih =>
    simp only [hcat, List.length_cons, List.replicate_succ, List.zipWith_cons_cons,
      List.map_cons]
    exact congrArg _ ih

/-- `eye n` has `n` rows. -/
theorem eye_length (n : Nat) : (eye n).length = n := by
  simp [eye]

/-- Row form of the in-batch relevance matrix: row `i` is the `i`-th
identity row followed by `batch_size` zeros. -/
theorem inBatchRelevances_eq (B : Nat) :
    inBatchRelevances B
      = (List.range B).map fun i => eyeRow B i ++ List.replicate B 0 := by
  unfold inBatchRelevances zeros
  rw [show List.replicate B (List.replicate B (0 : Rat))
      = List.replicate (eye B).length (List.replicate B 0) by rw [eye_length]]
  rw [hcat_replicate]
  simp [eye, List.map_map, Function.comp]

/-- An identity row read at any in-range column. -/
theorem eyeRow_getD (n i j : Nat) (hj : j < n) :
    (eyeRow n i).getD j 0 = if j = i then 1 else 0 := by
  simp [eyeRow, List.getD_eq_getElem?_getD, List.getElem?_map, List.getElem?_range, hj]

/-- The in-batch relevance matrix entry at row `i`, column `j`. -/
theorem inBatchRelevances_entry (B i j : Nat) (hi : i < B) (hj : j < 2 * B) :
    ((inBatchRelevances B).getD i []).getD j 0 = if j = i then 1 else 0 := by
  rw [inBatchRelevances_eq]
  have hrow : ((List.range B).map fun i => eyeRow B i ++ List.replicate B (0 : Rat)).getD i []
      = eyeRow B i ++ List.replicate B (0 : Rat) := by
    simp [List.getD_eq_getElem?_getD, List.getElem?_map, List.getElem?_range, hi]
  rw [hrow]
  have hlen : (eyeRow B i).length = B := by simp [eyeRow]
  by_cases hjB : j < B
  · rw [List.getD_append _ _ _ _ (by rw [hlen]; exact hjB)]
    exact eyeRow_getD B i j hjB
  · have hji : ¬ j = i := by omega
    rw [if_neg hji, List.getD_append_right _ _ _ _ (by rw [hlen]; omega)]
    simp only [List.getD_eq_getElem?_getD, List.getElem?_replicate]
    split <;> rfl

/-- Claim C8 (confirmed): for every batch size B, the matrix attached to
each batch of `batchwise_iter` has B rows of length 2B with entry (i, j)
equal to 1 iff `j = i` and 0 elsewhere (including the B negative columns);
every batch of the stream carries this one matrix, computed once before
the batch loop; for B = 3 it is the concrete (3, 6) matrix with a single 1
at (i, i) per row. -/
theorem C8_in_batch_matrix (B i j : Nat) (hi : i < B) (hj : j < 2 * B) :
    (inBatchRelevances B).length = B
    ∧ (∀ row ∈ inBatchRelevances B, row.length = 2 * B)
    ∧ ((inBatchRelevances B).getD i []).getD j 0 = (if j = i then 1 else 0)
    ∧ (∀ pairs n, (batchwiseStream B pairs n).relevances = inBatchRelevances B)
    ∧ inBatchRelevances 3 =
        [[1, 0, 0, 0, 0, 0], [0, 1, 0, 0, 0, 0], [0, 0, 1, 0, 0, 0]] := by
  refine ⟨?_, ?_, inBatchRelevances_entry B i j hi hj, fun pairs n => rfl, ?_⟩
  · simp [inBatchRelevances_eq]
  · rw [inBatchRelevances_eq]
    intro row hrow
    rcases List.mem_map.mp hrow with ⟨ix, hix, hrw⟩
    rw [← hrw]
    simp [eyeRow]
    omega
  · rw [inBatchRelevances_eq]
    norm_num [eyeRow, List.range_succ]
    rfl

/-- Witness for C8: at B = 3 the diagonal entry (1, 1) is 1 and the
off-diagonal negative-column entry (1, 4) is 0. -/
theorem C8_in_batch_matrix_witness :
    (1 < 3 ∧ 1 < 2 * 3
      ∧ ((inBatchRelevances 3).getD 1 []).getD 1 0 = 1)
    ∧ (1 < 3 ∧ 4 < 2 * 3
      ∧ ((inBatchRelevances 3).getD 1 []).getD 4 0 = 0) := by
  constructor
  · refine ⟨by decide, by decide, ?_⟩
    have h := (C8_in_batch_matrix 3 1 1 (by decide) (by decide)).2.2.1
    rw [h]
    norm_num
  · refine ⟨by decide, by decide, ?_⟩
    have h := (C8_in_batch_matrix 3 1 4 (by decide) (by decide)).2.2.1
    rw [h]
    norm_num

/-- The best table produced by one validation update is either unchanged or
a `setKey` of the old table at the updated metric. -/
theorem validationStep_fst_cases (metric : String) (keep : Bool) (warmup : Int)
    (stateEpoch ctxEpoch : Int) (value : Rat)
    (top : List (String × BestEntry)) (ckpt : List (String × Int)) :
    (validationStep metric keep warmup stateEpoch ctxEpoch value (top, ckpt)).fst = top
    ∨ ∃ e, (validationStep metric keep warmup stateEpoch ctxEpoch value
        (top, ckpt)).fst = setKey top metric e := by
  unfold validationStep
  by_cases hw : warmup ≤ stateEpoch
  · rw [if_pos hw]
    cases htop : top.lookup metric with
    | none => exact Or.inr ⟨_, rfl⟩
    | some t =>
      dsimp only
      by_cases hv : t.value < value
      · rw [if_pos hv]
        exact Or.inr ⟨_, rfl⟩
      · rw [if_neg hv]
        exact Or.inl rfl
  · rw [if_neg hw]
    exact Or.inl rfl

/-- The checkpoint table produced by one validation update is either
unchanged or a `setKey` of the old table at the updated metric. -/
theorem validationStep_snd_cases (metric : String) (keep : Bool) (warmup : Int)
    (stateEpoch ctxEpoch : Int) (value : Rat)
    (top : List (String × BestEntry)) (ckpt : List (String × Int)) :
    (validationStep metric keep warmup stateEpoch ctxEpoch value (top, ckpt)).snd = ckpt
    ∨ (validationStep metric keep warmup stateEpoch ctxEpoch value
        (top, ckpt)).snd = setKey ckpt metric ctxEpoch := by
  unfold validationStep
  by_cases hw : warmup ≤ stateEpoch
  · rw [if_pos hw]
    cases htop : top.lookup metric with
    | none => cases keep with
      | false => exact Or.inl rfl
      | true => exact Or.inr rfl
    | some t =>
      dsimp only
      by_cases hv : t.value < value
      · rw [if_pos hv]
        cases keep with
        | false => exact Or.inl rfl
        | true => exact Or.inr rfl
      · rw [if_neg hv]
        exact Or.inl rfl
  · rw [if_neg hw]
    exact Or.inl rfl

/-- Claim C3 (confirmed): the per-metric best table and best-checkpoint
table keep at most one entry per metric (key uniqueness is preserved by
every validation update); an existing best entry is never overwritten —
the whole state is untouched — unless the new value is a strict
improvement, so an equal value never overwrites; and the concrete sequence
of validation values 0.5 then 0.3 leaves the best at 0.5 with the first
epoch, while a subsequent 0.6 overwrites it. -/
theorem C3_best_overwrite :
    (∀ metric keep warmup stateEpoch ctxEpoch value top ckpt,
      ((top.map Prod.fst).Nodup →
        (((validationStep metric keep warmup stateEpoch ctxEpoch value
            (top, ckpt)).fst.map Prod.fst).Nodup))
      ∧ ((ckpt.map Prod.fst).Nodup →
        (((validationStep metric keep warmup stateEpoch ctxEpoch value
            (top, ckpt)).snd.map Prod.fst).Nodup)))
    ∧ (∀ metric keep warmup stateEpoch ctxEpoch value top ckpt t,
        top.lookup metric = some t → ¬ t.value < value →
        validationStep metric keep warmup stateEpoch ctxEpoch value (top, ckpt)
          = (top, ckpt))
    ∧ runValidationSeq "map" true (-1) [(0, 1/2), (2, 3/10)] ([], [])
        = ([("map", { value := 1/2, epoch := 0 })], [("map", 0)])
    ∧ runValidationSeq "map" true (-1) [(0, 1/2), (2, 3/10), (4, 3/5)] ([], [])
        = ([("map", { value := 3/5, epoch := 4 })], [("map", 4)]) := by
  refine ⟨?_, ?_, ?_, ?_⟩
  · intro metric keep warmup stateEpoch ctxEpoch value top ckpt
    constructor
    · intro hnd
      rcases validationStep_fst_cases metric keep warmup stateEpoch ctxEpoch value
        top ckpt with hc | ⟨e, hc⟩
      · rw [hc]; exact hnd
      · rw [hc]; exact setKey_keys_nodup top metric e hnd
    · intro hnd
      rcases validationStep_snd_cases metric keep warmup stateEpoch ctxEpoch value
        top ckpt with hc | hc
      · rw [hc]; exact hnd
      · rw [hc]; exact setKey_keys_nodup ckpt metric ctxEpoch hnd
  · intro metric keep warmup stateEpoch ctxEpoch value top ckpt t ht hv
    unfold validationStep
    by_cases hw : warmup ≤ stateEpoch
    · rw [if_pos hw]
      dsimp only
      rw [ht]
      dsimp only
      rw [if_neg hv]
    · rw [if_neg hw]
  · norm_num [runValidationSeq, validationStep, setKey, List.lookup]
  · norm_num [runValidationSeq, validationStep, setKey, List.lookup]

/-- Witness for C3: an arriving validation value equal to the stored best
(0.5 at a later epoch) leaves both tables untouched. -/
theorem C3_best_overwrite_witness :
    ([(("map" : String),
        ({ value := (1 : Rat)/2, epoch := (0 : Int) } : BestEntry))].lookup "map"
        = some ({ value := (1 : Rat)/2, epoch := (0 : Int) } : BestEntry))
    ∧ ¬ ({ value := (1 : Rat)/2, epoch := (0 : Int) } : BestEntry).value < 1/2
    ∧ validationStep "map" true (-1) 6 6 (1/2)
        ([("map", { value := 1/2, epoch := 0 })], [("map", 0)])
        = ([("map", { value := 1/2, epoch := 0 })], [("map", 0)]) := by
  refine ⟨rfl, by norm_num, ?_⟩
  exact C3_best_overwrite.2.1 "map" true (-1) 6 6 (1/2)
    [("map", { value := 1/2, epoch := 0 })] [("map", 0)]
    { value := 1/2, epoch := 0 } rfl (by norm_num)

/-- Association-list lookup finds any binding when keys are unique. -/
theorem lookup_eq_some_of_mem {α : Type} (l : List (String × α))
    (hnd : (l.map Prod.fst).Nodup) (k : String) (v : α) (h : (k, v) ∈ l) :
    l.lookup k = some v := by
  induction l with
  | nil => simp at h
  | cons p rest ih =>
    obtain ⟨pk, pv⟩ := p
    rcases List.mem_cons.mp h with h1 | h1
    · rw [Prod.mk.injEq] at h1
      rw [h1.1, h1.2]
      simp [List.lookup]
    · rw [List.map_cons] at hnd
      have hnd1 := List.nodup_cons.mp hnd
      have hkp : ¬ k = pk := by
        intro hk
        exact hnd1.1 (List.mem_map.mpr ⟨(k, v), h1, hk⟩)
      have hne : (k == pk) = false := by simpa using hkp
      simp only [List.lookup, hne]
      exact ih hnd1.2 h1

/-- A successful association-list lookup witnesses membership. -/
theorem mem_of_lookup_eq_some {α : Type} (l : List (String × α)) (k : String) (v : α)
    (h : l.lookup k = some v) : (k, v) ∈ l := by
  induction l with
  | nil => simp [List.lookup] at h
  | cons p rest ih =>
    obtain ⟨pk, pv⟩ := p
    by_cases hbeq : k = pk
    · subst hbeq
      simp [List.lookup] at h
      rw [← h]
      exact List.mem_cons_self _ _
    · have hne : (k == pk) = false := by simpa using hbeq
      simp only [List.lookup, hne] at h
      exact List.mem_cons_of_mem _ (ih h)

/-- `_itertopics` negatives as a filter-then-map of the retrieved list. -/
theorem itertopicsNegatives_eq (a : Qassessments) (retrieved : List (String × Rat)) :
    itertopicsNegatives a retrieved
      = (retrieved.filter fun sd => ! decide (0 < lookupRel a sd.fst)).map
          fun sd => (sd.fst, lookupRel a sd.fst, sd.snd) := by
  induction retrieved with
  | nil => rfl
  | cons sd rest ih =>
    simp only [itertopicsNegatives, List.filterMap_cons, List.filter_cons] at ih ⊢
    by_cases h : 0 < lookupRel a sd.fst
    · simp [h, ih]
    · simp [h, ih]

/-- Counterexample to C4 as stated: in the claim's own example (judgements
d1:1, d2:0, d3:-1; retrieved d1, d2, d4) the judged, non-positive document
d3 is not retrieved, and it appears in neither the negatives of
`_itertopics` nor those of `execute` — so "all other retrieved or judged
documents are negative candidates" is false: only retrieved documents can
be negatives. -/
theorem C4_counterexample :
    ("d3" ∈ c4assess.map Prod.fst ∧ ¬ 0 < lookupRel c4assess "d3")
    ∧ "d3" ∉ (itertopicsNegatives c4assess c4retrievedScored).map Prod.fst
    ∧ "d3" ∉ (executeSplit c4assess c4retrieved).snd
    ∧ "d3" ∉ (itertopicsPositives c4assess).map Prod.fst
    ∧ "d3" ∉ (executeSplit c4assess c4retrieved).fst := by
  decide

/-- Claim C4 (corrected): with unique judgement keys, a document is a
positive of `_itertopics` iff it is judged with relevance strictly greater
than 0; the negative candidates are exactly the retrieved documents whose
judged relevance (defaulting to 0 for unjudged ones) is not strictly
positive — judged-but-unretrieved documents are not negative candidates;
`execute` partitions the retrieved documents by the same rule; and on the
example (judgements d1:1, d2:0, d3:-1, retrieved d1, d2, d4) both splits
give positives d1 and negatives d2, d4. -/
theorem C4_pos_neg_split (a : Qassessments) (hnd : (a.map Prod.fst).Nodup)
    (retrieved : List (String × Rat)) (retrievedIds : List String) (d : String) :
    (d ∈ (itertopicsPositives a).map Prod.fst ↔
      d ∈ a.map Prod.fst ∧ 0 < lookupRel a d)
    ∧ (d ∈ (itertopicsNegatives a retrieved).map Prod.fst ↔
      d ∈ retrieved.map Prod.fst ∧ ¬ 0 < lookupRel a d)
    ∧ (executeSplit a retrievedIds).fst
        = retrievedIds.filter (fun x => decide (0 < lookupRel a x))
    ∧ (executeSplit a retrievedIds).snd
        = retrievedIds.filter (fun x => ! decide (0 < lookupRel a x))
    ∧ (itertopicsPositives c4assess).map Prod.fst = ["d1"]
    ∧ (itertopicsNegatives c4assess c4retrievedScored).map Prod.fst = ["d2", "d4"]
    ∧ executeSplit c4assess c4retrieved = (["d1"], ["d2", "d4"]) := by
  refine ⟨?_, ?_, ?_, ?_, by decide, by decide, by decide⟩
  · constructor
    · intro hd
      rcases List.mem_map.mp hd with ⟨trip, htrip, hfst⟩
      rcases List.mem_map.mp (show trip ∈ (a.filter fun p => 0 < p.snd).map
          (fun p => (p.fst, p.snd, (0 : Rat))) from htrip) with ⟨p, hp, htr⟩
      rcases List.mem_filter.mp hp with ⟨hpa, hcond⟩
      have hpd : p.fst = d := by rw [← htr] at hfst; exact hfst
      have hlk : a.lookup p.fst = some p.snd :=
        lookup_eq_some_of_mem a hnd p.fst p.snd (by rcases p with ⟨x, y⟩; exact hpa)
      refine ⟨List.mem_map.mpr ⟨p, hpa, hpd⟩, ?_⟩
      rw [← hpd, lookupRel, hlk]
      simpa using hcond
    · rintro ⟨hmem, hrel⟩
      cases hlk : a.lookup d with
      | none => rw [lookupRel, hlk] at hrel; simp at hrel
      | some r =>
        have hmemr : (d, r) ∈ a := mem_of_lookup_eq_some a d r hlk
        have hr : 0 < r := by rw [lookupRel, hlk] at hrel; simpa using hrel
        exact List.mem_map.mpr ⟨(d, r, 0),
          List.mem_map.mpr ⟨(d, r), List.mem_filter.mpr ⟨hmemr, by simpa using hr⟩, rfl⟩,
          rfl⟩
  · rw [itertopicsNegatives_eq]
    constructor
    · intro hd
      rcases List.mem_map.mp hd with ⟨trip, htrip, hfst⟩
      rcases List.mem_map.mp htrip with ⟨sd, hsd, htr⟩
      rcases List.mem_filter.mp hsd with ⟨hsdmem, hcond⟩
      have hsdd : sd.fst = d := by rw [← htr] at hfst; exact hfst
      refine ⟨List.mem_map.mpr ⟨sd, hsdmem, hsdd⟩, ?_⟩
      rw [← hsdd]
      simpa using hcond
    · rintro ⟨hmem, hrel⟩
      rcases List.mem_map.mp hmem with ⟨sd, hsd, hsdd⟩
      exact List.mem_map.mpr ⟨(sd.fst, lookupRel a sd.fst, sd.snd),
        List.mem_map.mpr ⟨sd,
          List.mem_filter.mpr ⟨hsd, by rw [hsdd]; simpa using hrel⟩, rfl⟩, hsdd⟩
  · rw [executeSplit, List.partition_eq_filter_filter]
  · rw [executeSplit, List.partition_eq_filter_filter]
    rfl

/-- Witness for C4: the example assessments have unique keys, and the
amended split evaluates on them to positives d1 and negatives d2, d4. -/
theorem C4_pos_neg_split_witness :
    (c4assess.map Prod.fst).Nodup
    ∧ executeSplit c4assess c4retrieved = (["d1"], ["d2", "d4"]) := by
  refine ⟨by decide, ?_⟩
  exact (C4_pos_neg_split c4assess (by decide) c4retrievedScored c4retrieved
    "d1").2.2.2.2.2.2
